import Mathlib

/-!
Shallow embedding of the bm25s haystack integration: the document store
adapter `BM25S_DocumentStore` and the retriever adapter `BM25S_Retriever`,
together with models of the external objects they wrap (the bm25s index,
the stemmer, and the host framework serialization helpers).  Python
exceptions are modelled with `Except`; every store method that can raise
returns its result together with the post-state of the store, so that
atomicity on error is a provable statement.
-/

/-- Python exceptions the embedded code can raise. -/
inductive PyErr where
  | exception (msg : String)
  | notImplementedError
  | typeError (msg : String)
  | keyError (key : String)
  | indexError (msg : String)
deriving DecidableEq, Repr

/-- Python values appearing in the dictionaries the adapter touches. -/
inductive PyVal where
  | str (s : String)
  | bool (b : Bool)
  | int (n : Int)
deriving DecidableEq, Repr

/-- The filters argument of `filter_documents`, a Python `Dict[str, Any]`,
modelled as a string-keyed association list. -/
abbrev Filters := List (String × PyVal)

/-- The haystack `DuplicatePolicy` enumeration. -/
inductive DuplicatePolicy where
  | NONE
  | SKIP
  | OVERWRITE
  | FAIL
deriving DecidableEq, Repr

/-- One item of a row of the wrapped retrieve output (with
`return_as='documents'`, the only mode this repository uses): a corpus
record (a dict; the adapter reads its `text` key) when the corpus was
loaded, or a bare numeric document id when it was not. -/
inductive RItem where
  | record (fields : List (String × String))
  | docid (n : Int)
deriving DecidableEq, Repr

/-- A haystack `Document`, seen through the constructor arguments this
repository passes: `id = none` means no id argument was given and the
framework generates one; `content = none` means no content was given. -/
structure Document where
  id : Option RItem
  content : Option String
deriving DecidableEq, Repr

/-- A PyStemmer `Stemmer` object, opaque to this repository beyond the
language it was constructed from. -/
structure Stemmer where
  lang : String
deriving DecidableEq, Repr

/-- The tokenized query produced by `bm25s.tokenize`, opaque to this
repository: it is produced by the wrapped library and passed back to it. -/
abbrev QueryTokens := List String

/-- The wrapped `bm25s.BM25` index object, seen through the two members
this repository uses: the `scores` dict (only its integer-valued
`num_docs` entry is ever read, so entries are modelled as integers) and
`retrieve`, which maps a tokenized query and a count `k` to rows of
retrieved items (one row per query). -/
structure BM25Index where
  scores : List (String × Int)
  retrieve : QueryTokens → Int → List (List RItem)

/-- The external bm25s library functions the repository calls:
`bm25s.BM25.load(dirpath, load_corpus, mmap)` and
`bm25s.tokenize(query, stemmer)`. -/
structure ExternalLib where
  load : String → Bool → Bool → BM25Index
  tokenize : String → Stemmer → QueryTokens

/-- The document store adapter: four configuration fields plus the loaded
index and the constructed stemmer. -/
structure BM25S_DocumentStore where
  corpus_dirpath : String
  load_corpus : Bool
  mmap : Bool
  stemmer_lang : String
  bm25s : BM25Index
  stemmer : Stemmer

/-- `BM25S_DocumentStore.__init__`: stores the four configuration
arguments, loads the index via the wrapped library and constructs the
stemmer for the requested language. -/
def BM25S_DocumentStore.init (lib : ExternalLib) (corpus_dirpath : String)
    (load_corpus : Bool) (mmap : Bool) (stemmer_lang : String) :
    BM25S_DocumentStore :=
  { corpus_dirpath := corpus_dirpath
    load_corpus := load_corpus
    mmap := mmap
    stemmer_lang := stemmer_lang
    bm25s := lib.load corpus_dirpath load_corpus mmap
    stemmer := { lang := stemmer_lang } }

/-- Python dict subscript `d[k]` on an integer-valued dict: `KeyError`
when the key is absent. -/
def dictGetInt (d : List (String × Int)) (k : String) : Except PyErr Int :=
  match d.lookup k with
  | some v => Except.ok v
  | none => Except.error (PyErr.keyError k)

/-- `count_documents`: returns `self.bm25s.scores["num_docs"]`. -/
def BM25S_DocumentStore.count_documents (self : BM25S_DocumentStore) :
    Except PyErr Int × BM25S_DocumentStore :=
  (dictGetInt self.bm25s.scores "num_docs", self)

/-- `filter_documents`: ignores its argument and raises
`NotImplementedError`. -/
def BM25S_DocumentStore.filter_documents (self : BM25S_DocumentStore)
    (filters : Option Filters) :
    Except PyErr (List Document) × BM25S_DocumentStore :=
  (Except.error PyErr.notImplementedError, self)

/-- `write_documents`: raises `Exception('bm25s is immutable')` before
touching any field. -/
def BM25S_DocumentStore.write_documents (self : BM25S_DocumentStore)
    (documents : List Document) (policy : DuplicatePolicy) :
    Except PyErr Int × BM25S_DocumentStore :=
  (Except.error (PyErr.exception "bm25s is immutable"), self)

/-- `delete_documents`: raises `Exception('bm25s is immutable')` before
touching any field. -/
def BM25S_DocumentStore.delete_documents (self : BM25S_DocumentStore)
    (document_ids : List String) :
    Except PyErr Unit × BM25S_DocumentStore :=
  (Except.error (PyErr.exception "bm25s is immutable"), self)

/-- The `init_parameters` sub-dictionary of the serialized store: exactly
the four constructor parameters. -/
structure InitParameters where
  corpus_dirpath : String
  load_corpus : Bool
  mmap : Bool
  stemmer_lang : String
deriving DecidableEq, Repr

/-- The output of the framework helper `default_to_dict`: the component
type name together with the init parameters. -/
structure StoreDict where
  type : String
  init_parameters : InitParameters
deriving DecidableEq, Repr

/-- The fully qualified type name the framework records for the store. -/
def storeTypeName : String :=
  "haystack_integrations.document_stores.bm25s.document_store.BM25S_DocumentStore"

/-- The framework helper `default_to_dict`, applied to the keyword
arguments the store passes it. -/
def default_to_dict (p : InitParameters) : StoreDict :=
  { type := storeTypeName, init_parameters := p }

/-- `to_dict`: serializes exactly the four constructor parameters through
`default_to_dict`. -/
def BM25S_DocumentStore.to_dict (self : BM25S_DocumentStore) : StoreDict :=
  default_to_dict
    { corpus_dirpath := self.corpus_dirpath
      load_corpus := self.load_corpus
      mmap := self.mmap
      stemmer_lang := self.stemmer_lang }

/-- The framework helper `default_from_dict`: re-invokes the constructor
with the serialized init parameters. -/
def default_from_dict (lib : ExternalLib) (data : StoreDict) :
    BM25S_DocumentStore :=
  BM25S_DocumentStore.init lib data.init_parameters.corpus_dirpath
    data.init_parameters.load_corpus data.init_parameters.mmap
    data.init_parameters.stemmer_lang

/-- `from_dict`: delegates to `default_from_dict`. -/
def BM25S_DocumentStore.from_dict (lib : ExternalLib) (data : StoreDict) :
    BM25S_DocumentStore :=
  default_from_dict lib data

/-- One parameter of a Python function signature: its name and its
default value, when it has one. -/
structure Param where
  name : String
  default : Option PyVal
deriving DecidableEq, Repr

/-- The parameter list of `BM25S_DocumentStore.__init__` (after `self`):
`corpus_dirpath` has no default, the other three do. -/
def init_signature : List Param :=
  [ { name := "corpus_dirpath", default := none },
    { name := "load_corpus", default := some (PyVal.bool true) },
    { name := "mmap", default := some (PyVal.bool true) },
    { name := "stemmer_lang", default := some (PyVal.str "english") } ]

/-- Python binding of a call with no arguments against a signature: each
parameter takes its default value, and a parameter with no default raises
a `TypeError` naming it. -/
def bindZeroArgCall : List Param → Except PyErr (List (String × PyVal))
  | [] => Except.ok []
  | p :: rest =>
    match p.default with
    | none =>
      Except.error (PyErr.typeError
        ("__init__() missing 1 required positional argument: " ++ p.name))
    | some v => (bindZeroArgCall rest).map (fun l => (p.name, v) :: l)

/-- The `docstore` fixture of the provided test stub: the argument binding
of the zero-argument call `BM25S_DocumentStore()`. -/
def docstore_fixture : Except PyErr (List (String × PyVal)) :=
  bindZeroArgCall init_signature

/-- One invocation of a public store operation, with its arguments. -/
inductive StoreOp where
  | countOp
  | filterOp (filters : Option Filters)
  | writeOp (documents : List Document) (policy : DuplicatePolicy)
  | deleteOp (document_ids : List String)
  | toDictOp

/-- Post-state of each public store operation.  `to_dict` is a pure
reader, so its post-state is the store itself. -/
def applyStoreOp (s : BM25S_DocumentStore) : StoreOp → BM25S_DocumentStore
  | StoreOp.countOp => (s.count_documents).2
  | StoreOp.filterOp f => (s.filter_documents f).2
  | StoreOp.writeOp ds p => (s.write_documents ds p).2
  | StoreOp.deleteOp ids => (s.delete_documents ids).2
  | StoreOp.toDictOp => s

/-- The retriever adapter: the wrapped store and the requested result
count. -/
structure BM25S_Retriever where
  document_store : BM25S_DocumentStore
  top_k : Int

/-- `BM25S_Retriever.__init__`: stores its two arguments and performs no
validation; the `Except` return type records that no exception is
raised. -/
def BM25S_Retriever.init (document_store : BM25S_DocumentStore)
    (top_k : Int) : Except PyErr BM25S_Retriever :=
  Except.ok { document_store := document_store, top_k := top_k }

/-- Python subscript `doc['text']` on one retrieved item: reads the
`text` key of a corpus record (`KeyError` when absent) and is a
`TypeError` on a bare numeric id. -/
def itemTextLookup (doc : RItem) : Except PyErr String :=
  match doc with
  | RItem.record fields =>
    match fields.lookup "text" with
    | some t => Except.ok t
    | none => Except.error (PyErr.keyError "text")
  | RItem.docid _ =>
    Except.error (PyErr.typeError "int object is not subscriptable")

/-- The comprehension body `Document(content=doc['text'])`: only the
`text` field of the record is used and no id argument is passed. -/
def docFromRecord (doc : RItem) : Except PyErr Document :=
  (itemTextLookup doc).map (fun t => { id := none, content := some t })

/-- The comprehension body `Document(id=doc)`: the raw retrieved value
becomes the id argument and no content is passed. -/
def docFromRawId (doc : RItem) : Document :=
  { id := some doc, content := none }

/-- `BM25S_Retriever.run`: tokenizes the query with the store's stemmer,
calls the wrapped index's retrieve with those tokens and `k = top_k`, and
wraps the first row of the output into `Document`s; indexing an empty
output raises `IndexError`. -/
def BM25S_Retriever.run (self : BM25S_Retriever) (lib : ExternalLib)
    (query : String) : Except PyErr (List Document) :=
  let query_tokens := lib.tokenize query self.document_store.stemmer
  let bm25s_retrieved_docs :=
    self.document_store.bm25s.retrieve query_tokens self.top_k
  match bm25s_retrieved_docs with
  | [] => Except.error (PyErr.indexError "index 0 is out of bounds")
  | row :: _ =>
    if self.document_store.load_corpus then
      row.mapM docFromRecord
    else
      Except.ok (row.map docFromRawId)

/-- Post-processing of one row of the wrapped retrieve output, as `run`
performs it: a function of the `load_corpus` flag and that row only. -/
def buildRow (load_corpus : Bool) (row : List RItem) :
    Except PyErr (List Document) :=
  if load_corpus then row.mapM docFromRecord
  else Except.ok (row.map docFromRawId)

/-- Post-processing of the whole wrapped retrieve output, as `run`
performs it: index the first row (`IndexError` when there is none) and
build documents from it. -/
def buildDocs (load_corpus : Bool) (rows : List (List RItem)) :
    Except PyErr (List Document) :=
  match rows with
  | [] => Except.error (PyErr.indexError "index 0 is out of bounds")
  | row :: _ => buildRow load_corpus row

/-- A concrete corpus record used to instantiate the theorems below. -/
def item0 : RItem := RItem.record [("text", "hello world")]

/-- A concrete wrapped index whose scores dict holds 42 documents and
whose retrieve always yields one row containing `item0`. -/
def index0 : BM25Index :=
  { scores := [("num_docs", 42)]
    retrieve := fun _ _ => [[item0]] }

/-- A concrete external library: every load yields `index0` and a query
tokenizes to itself. -/
def lib0 : ExternalLib :=
  { load := fun _ _ _ => index0
    tokenize := fun q _ => [q] }

/-- A concrete store built through the constructor from `lib0`. -/
def store0 : BM25S_DocumentStore :=
  BM25S_DocumentStore.init lib0 "corpus" true true "english"

/-- A concrete retriever over `store0` with the default `top_k` of 10. -/
def retr0 : BM25S_Retriever :=
  { document_store := store0, top_k := 10 }

/-- C1: for every list of documents and every duplicate policy,
`write_documents` raises the generic `Exception('bm25s is immutable')`,
and for every list of ids `delete_documents` raises the same error; in
both cases the post-state of the store equals the pre-state. -/
theorem write_delete_documents_immutable (s : BM25S_DocumentStore)
    (documents : List Document) (policy : DuplicatePolicy)
    (document_ids : List String) :
    s.write_documents documents policy
      = (Except.error (PyErr.exception "bm25s is immutable"), s) ∧
    s.delete_documents document_ids
      = (Except.error (PyErr.exception "bm25s is immutable"), s) :=
  ⟨rfl, rfl⟩

/-- C2: for every filter argument, including the default `none`,
`filter_documents` raises `NotImplementedError` and the post-state of the
store equals the pre-state, so no list of documents is ever returned. -/
theorem filter_documents_not_implemented (s : BM25S_DocumentStore)
    (filters : Option Filters) :
    s.filter_documents filters
      = (Except.error PyErr.notImplementedError, s) ∧
    s.filter_documents none
      = (Except.error PyErr.notImplementedError, s) :=
  ⟨rfl, rfl⟩

/-- C3: for every store built through the constructor whose wrapped index
exposes a `num_docs` entry in its scores dict, `count_documents` returns
exactly that value without error and leaves the store unchanged. -/
theorem count_documents_reads_num_docs (lib : ExternalLib)
    (corpus_dirpath : String) (load_corpus mmap : Bool)
    (stemmer_lang : String) (n : Int)
    (h : ((lib.load corpus_dirpath load_corpus mmap).scores).lookup
        "num_docs" = some n) :
    (BM25S_DocumentStore.init lib corpus_dirpath load_corpus mmap
        stemmer_lang).count_documents
      = (Except.ok n,
         BM25S_DocumentStore.init lib corpus_dirpath load_corpus mmap
           stemmer_lang) := by
  simp [BM25S_DocumentStore.count_documents, dictGetInt,
    BM25S_DocumentStore.init, h]

/-- Witness for C3: on the concrete store `store0` the count is 42 and
the store is unchanged. -/
theorem count_documents_reads_num_docs_witness :
    store0.count_documents = (Except.ok 42, store0) :=
  count_documents_reads_num_docs lib0 "corpus" true true "english" 42
    (by decide)

/-- C5: `from_dict` after `to_dict` reproduces the four configuration
fields of the original store, because `to_dict` serializes exactly the
four constructor parameters and `from_dict` re-invokes the constructor
with them. -/
theorem to_dict_from_dict_roundtrip (lib : ExternalLib)
    (s : BM25S_DocumentStore) :
    (BM25S_DocumentStore.from_dict lib s.to_dict).corpus_dirpath
        = s.corpus_dirpath ∧
    (BM25S_DocumentStore.from_dict lib s.to_dict).load_corpus
        = s.load_corpus ∧
    (BM25S_DocumentStore.from_dict lib s.to_dict).mmap = s.mmap ∧
    (BM25S_DocumentStore.from_dict lib s.to_dict).stemmer_lang
        = s.stemmer_lang :=
  ⟨rfl, rfl, rfl, rfl⟩

/-- C6: the zero-argument construction attempted by the test stub fixture
fails against the actual constructor signature with a missing-argument
error naming `corpus_dirpath`. -/
theorem zero_arg_construction_fails :
    docstore_fixture = Except.error (PyErr.typeError
      "__init__() missing 1 required positional argument: corpus_dirpath") :=
  rfl

/-- C7: every sequence of public store operations (count, filter, write,
delete, to_dict) leaves the store, its wrapped index included, unchanged,
so `count_documents` gives the same answer before and after. -/
theorem store_ops_preserve_state (s : BM25S_DocumentStore)
    (ops : List StoreOp) :
    List.foldl applyStoreOp s ops = s ∧
    (List.foldl applyStoreOp s ops).count_documents = s.count_documents := by
  have h : ∀ (l : List StoreOp) (t : BM25S_DocumentStore),
      List.foldl applyStoreOp t l = t := by
    intro l
    induction l with
    | nil => intro t; rfl
    | cons op rest ih =>
      intro t
      have hop : applyStoreOp t op = t := by cases op <;> rfl
      calc List.foldl applyStoreOp t (op :: rest)
          = List.foldl applyStoreOp (applyStoreOp t op) rest := rfl
        _ = List.foldl applyStoreOp t rest := by rw [hop]
        _ = t := ih t
  exact ⟨h ops s, by rw [h ops s]⟩

/-- C8: `BM25S_Retriever.__init__` validates nothing: for every integer
`top_k`, zero and negative values included, construction succeeds without
raising and stores the given `top_k` unchanged. -/
theorem retriever_init_no_validation (ds : BM25S_DocumentStore) (k : Int) :
    BM25S_Retriever.init ds k
      = Except.ok { document_store := ds, top_k := k } :=
  rfl

/-- A successful `docFromRecord` yields a document with no id argument
and the record's text as content. -/
lemma docFromRecord_ok_shape (a : RItem) (b : Document)
    (h : docFromRecord a = Except.ok b) :
    b.id = none ∧ ∃ t, b.content = some t := by
  unfold docFromRecord at h
  cases hit : itemTextLookup a with
  | error e => rw [hit] at h; simp [Except.map] at h
  | ok t =>
    rw [hit] at h
    simp only [Except.map] at h
    cases h
    exact ⟨rfl, t, rfl⟩

/-- Every document in a successful `mapM docFromRecord` has no id
argument and some content. -/
lemma mapM_docFromRecord_shape (row : List RItem) :
    ∀ docs : List Document, row.mapM docFromRecord = Except.ok docs →
      ∀ d, d ∈ docs → d.id = none ∧ ∃ t, d.content = some t := by
  induction row with
  | nil =>
    intro docs h d hd
    rw [List.mapM_nil] at h
    cases h
    cases hd
  | cons a as ih =>
    intro docs h d hd
    rw [List.mapM_cons] at h
    cases ha : docFromRecord a with
    | error e =>
      rw [ha] at h
      simp only [bind, Except.bind] at h
      cases h
    | ok b =>
      cases has : List.mapM docFromRecord as with
      | error e =>
        rw [ha, has] at h
        simp only [bind, Except.bind] at h
        cases h
      | ok bs =>
        rw [ha, has] at h
        simp only [bind, Except.bind, pure, Except.pure] at h
        cases h
        cases hd with
        | head => exact docFromRecord_ok_shape a d ha
        | tail _ hmem => exact ih bs has d hmem

/-- A successful `mapM` preserves list length. -/
lemma mapM_ok_length {α β : Type} (f : α → Except PyErr β) :
    ∀ (l : List α) (l2 : List β), l.mapM f = Except.ok l2 →
      l2.length = l.length := by
  intro l
  induction l with
  | nil =>
    intro l2 h
    rw [List.mapM_nil] at h
    cases h
    rfl
  | cons a as ih =>
    intro l2 h
    rw [List.mapM_cons] at h
    cases ha : f a with
    | error e => rw [ha] at h; simp only [bind, Except.bind] at h; cases h
    | ok b =>
      cases has : List.mapM f as with
      | error e =>
        rw [ha, has] at h
        simp only [bind, Except.bind] at h
        cases h
      | ok bs =>
        rw [ha, has] at h
        simp only [bind, Except.bind, pure, Except.pure] at h
        cases h
        simp [ih bs has]

/-- C4: `run` tokenizes the query with the document store's stemmer and
delegates entirely to the wrapped index: its output equals the pure
post-processing `buildDocs` of exactly `retrieve` applied to those tokens
with `k = top_k`, so no scoring, stemming, or tokenization happens in
this repository's code. -/
theorem run_delegates_to_wrapped_index (self : BM25S_Retriever)
    (lib : ExternalLib) (query : String) :
    self.run lib query
      = buildDocs self.document_store.load_corpus
          (self.document_store.bm25s.retrieve
            (lib.tokenize query self.document_store.stemmer) self.top_k) := by
  cases h : self.document_store.bm25s.retrieve
      (lib.tokenize query self.document_store.stemmer) self.top_k with
  | nil => simp [BM25S_Retriever.run, buildDocs, h]
  | cons row rest => simp [BM25S_Retriever.run, buildDocs, buildRow, h]

/-- C9: the shape of the run result depends on the store's `load_corpus`
flag: when it is true, each document of the first retrieved row is built
only from the record's `text` field with no id argument (the framework
generates the id); when it is false, each document carries the raw
retrieved value as its id and no content. -/
theorem run_builds_docs_by_load_corpus (self : BM25S_Retriever)
    (lib : ExternalLib) (query : String) (row : List RItem)
    (rest : List (List RItem))
    (hrow : self.document_store.bm25s.retrieve
        (lib.tokenize query self.document_store.stemmer) self.top_k
        = row :: rest) :
    (self.document_store.load_corpus = true →
        self.run lib query = row.mapM docFromRecord) ∧
    (self.document_store.load_corpus = false →
        self.run lib query = Except.ok (row.map docFromRawId)) ∧
    (∀ docs : List Document, self.document_store.load_corpus = true →
        self.run lib query = Except.ok docs →
        ∀ d, d ∈ docs → d.id = none ∧ ∃ t, d.content = some t) ∧
    (∀ docs : List Document, self.document_store.load_corpus = false →
        self.run lib query = Except.ok docs →
        ∀ d, d ∈ docs → (∃ r, d.id = some r) ∧ d.content = none) := by
  have h1 : self.document_store.load_corpus = true →
      self.run lib query = row.mapM docFromRecord := by
    intro hc
    simp [BM25S_Retriever.run, hrow, hc]
  have h2 : self.document_store.load_corpus = false →
      self.run lib query = Except.ok (row.map docFromRawId) := by
    intro hc
    simp [BM25S_Retriever.run, hrow, hc]
  refine ⟨h1, h2, ?_, ?_⟩
  · intro docs hc hok d hd
    rw [h1 hc] at hok
    exact mapM_docFromRecord_shape row docs hok d hd
  · intro docs hc hok d hd
    rw [h2 hc] at hok
    cases hok
    rcases List.mem_map.mp hd with ⟨r, hr, hdr⟩
    cases hdr
    exact ⟨⟨r, rfl⟩, rfl⟩

/-- Witness for C9: on the concrete retriever with a loaded corpus, the
run result is one framework-id document holding the record's text. -/
theorem run_builds_docs_by_load_corpus_witness :
    retr0.run lib0 "cat"
      = Except.ok [{ id := none, content := some "hello world" }] := by
  have h := (run_builds_docs_by_load_corpus retr0 lib0 "cat" [item0] []
    rfl).1 rfl
  rw [h]
  rfl

/-- C10: `run` uses only the first row of the wrapped retrieve output:
its result is a pure function of that row, a successful result has
exactly one document per entry of that row, and when the wrapped retrieve
returned at most `k` items in that row the result has at most `top_k`
documents. -/
theorem run_uses_first_row_only (self : BM25S_Retriever)
    (lib : ExternalLib) (query : String) (row : List RItem)
    (rest : List (List RItem))
    (hrow : self.document_store.bm25s.retrieve
        (lib.tokenize query self.document_store.stemmer) self.top_k
        = row :: rest) :
    self.run lib query = buildRow self.document_store.load_corpus row ∧
    (∀ docs : List Document, self.run lib query = Except.ok docs →
        docs.length = row.length) ∧
    ((row.length : Int) ≤ self.top_k →
      ∀ docs : List Document, self.run lib query = Except.ok docs →
        (docs.length : Int) ≤ self.top_k) := by
  have h0 : self.run lib query
      = buildRow self.document_store.load_corpus row := by
    simp [BM25S_Retriever.run, buildRow, hrow]
  have hlen : ∀ docs : List Document,
      self.run lib query = Except.ok docs → docs.length = row.length := by
    intro docs hok
    rw [h0] at hok
    unfold buildRow at hok
    by_cases hc : self.document_store.load_corpus = true
    · rw [if_pos hc] at hok
      exact mapM_ok_length docFromRecord row docs hok
    · rw [if_neg hc] at hok
      cases hok
      simp
  refine ⟨h0, hlen, ?_⟩
  intro hk docs hok
  rw [hlen docs hok]
  exact hk

/-- Witness for C10: on the concrete retriever the run result is the
post-processing of the single-item first row and has at most `top_k`
documents. -/
theorem run_uses_first_row_only_witness :
    retr0.run lib0 "dog" = buildRow true [item0] ∧
    ∀ docs : List Document, retr0.run lib0 "dog" = Except.ok docs →
      (docs.length : Int) ≤ retr0.top_k := by
  have h := run_uses_first_row_only retr0 lib0 "dog" [item0] [] rfl
  exact ⟨h.1, h.2.2 (by decide)⟩
